import Mathlib

/-!
# Verification of the llm-axe agent core (`agents.py`)

Shallow embedding of the four agent components of `agents.py` —
`PdfReader`, `FunctionCaller`, `OnlineAgent`, `Agent` — and proofs of the
specification claims about them.

Modelling conventions:

* A Python exception escaping a method is `Except.error msg`; a normal
  return is `Except.ok`.  A Python `None` result is `Option.none`.
* The LLM client is an object that may or may not expose an `ask` method;
  it is modelled as `LLMClient` with `ask? : Option (List Message → String)`
  (`ask? = none` models `hasattr(llm, "ask") = False`).
* `warnings.warn(msg)` calls are collected in a `List String` that the
  operations return alongside their result.
* External collaborators imported from `llm_axe.core`
  (`safe_read_json`, `get_yaml_prompt`, `internet_search`, `read_website`,
  `read_pdf`) and Python's `str.format` are not part of `agents.py`; they
  are passed as explicit function/string parameters, with the JSON
  extractor producing an `Option JsonObj` as the spec's
  SafeStructuredExtractor contract requires (`structured_object | FAILURE`).
* Python attribute assignments to `self` are modelled by returning the
  updated component record; methods of the source that perform no such
  assignment are modelled as returning the record unchanged.
-/

/-- A chat message `{"role": ..., "content": ...}`. -/
structure Message where
  role : String
  content : String
  deriving DecidableEq, Repr

/-- A JSON value, as produced by parsing an LLM response. -/
inductive JsonVal where
  | str (s : String)
  | num (n : Int)
  | bool (b : Bool)
  | null
  | arr (elems : List JsonVal)
  | obj (fields : List (String × JsonVal))

/-- A parsed top-level JSON object (a Python dict with string keys). -/
def JsonObj := List (String × JsonVal)

/-- Python `dict` subscript / `in` on a parsed JSON object: keys are unique
in a parsed dict, so first-match lookup. -/
def jsonLookup (o : JsonObj) (k : String) : Option JsonVal :=
  (List.find? (fun p => p.1 == k) o).map (fun p => p.2)

/-- An LLM client object; `ask? = none` models an object without an `ask`
method (`hasattr(llm, "ask") = False`). -/
structure LLMClient where
  ask? : Option (List Message → String)

/-- A registered Python function: its `__name__` and an identity tag
standing for the underlying callable object. -/
structure PyFunc where
  name : String
  id : Nat
  deriving DecidableEq, Repr

/-- Modelled from the spec: CapabilitySchema generation
(`generate_schema` of `llm_axe.core`, not under `src/`): a pure,
order-preserving textual rendering of the registered functions' names.
No claim depends on the schema text itself. -/
def generate_schema (functions : List PyFunc) : String :=
  String.intercalate "\n" (functions.map (fun f => f.name))

/-- Replace every occurrence of `pat` in a character list by `repl`,
scanning left to right; `fuel` bounds the recursion (passing the input
length makes it total and structurally recursive). -/
def substCharsAux (pat repl : List Char) : Nat → List Char → List Char
  | 0, _ => []
  | _ + 1, [] => []
  | fuel + 1, c :: rest =>
    if pat ≠ [] ∧ pat.isPrefixOf (c :: rest) then
      repl ++ substCharsAux pat repl fuel ((c :: rest).drop pat.length)
    else
      c :: substCharsAux pat repl fuel rest

/-- Modelled from the spec: template substitution (Python `str.format` /
the PromptAssembler contract "string substitution of all recognized
placeholders"): replace the named placeholder `\x7bkey\x7d` by `value`
everywhere in the template. -/
def substPlaceholder (template : String) (key value : String) : String :=
  let pat := ("\x7b" ++ key ++ "\x7d").data
  String.mk (substCharsAux pat value.data template.data.length template.data)

/-- Python `str(v)` on a JSON value, as used by f-string interpolation. -/
def pyStr : JsonVal → String
  | JsonVal.str s => s
  | JsonVal.num n => toString n
  | JsonVal.bool b => if b then "True" else "False"
  | JsonVal.null => "None"
  | JsonVal.arr _ => "<list>"
  | JsonVal.obj _ => "<dict>"

/-- Python `os.path.basename`. -/
def basename (path : String) : String :=
  (path.splitOn "/").getLastD ""

/-! ## FunctionCaller (`agents.py` lines 63–166) -/

/-- `{func.__name__: func for func in functions}` (line 83): a Python dict
built by inserting in list order, later insertions overwriting earlier
ones.  Modelled as the lookup function of the final dict. -/
def buildFunctionsDict (functions : List PyFunc) : String → Option PyFunc :=
  functions.foldl (fun d f => fun n => if f.name == n then some f else d n)
    (fun _ => none)

/-- The `FunctionCaller` instance state after `__init__`. -/
structure FunctionCaller where
  llm : Option LLMClient
  functions_dict : String → Option PyFunc
  additional_instructions : String
  schema : String
  system_prompt : Message

/-- `FunctionCaller.__init__` (lines 71–92).  `fcTemplate` is the string
returned by `get_yaml_prompt("system_prompts.yaml", "FunctionCaller")`. -/
def FunctionCaller.init (llm : Option LLMClient) (functions : List PyFunc)
    (additional_system_instructions : String)
    (custom_system_prompt : Option String) (fcTemplate : String) :
    FunctionCaller :=
  let schema := generate_schema functions
  let sp := match custom_system_prompt with
    | none => fcTemplate
    | some c => c
  { llm := llm
    functions_dict := buildFunctionsDict functions
    additional_instructions := additional_system_instructions
    schema := schema
    system_prompt :=
      ⟨"system",
        substPlaceholder (substPlaceholder sp "schema" schema)
          "additional_instructions" additional_system_instructions⟩ }

/-- The dict returned on success by `get_function` (lines 140–145). -/
structure GetFunctionResult where
  function : PyFunc
  parameters : JsonVal
  prompts : List Message
  raw_response : String

/-- Warning message of line 117 / line 280. -/
def warnNoAsk : String :=
  "llm object must have an ask function! See OllamaChat class in models.py for an example."

/-- Warning message of line 133. -/
def warnNoFunctionKeys : String :=
  "llm did not respond with a function and parameters."

/-- Warning message of line 137. -/
def warnInvalidFunction (functionName : String) : String :=
  functionName ++ " is not a valid function."

/-- `ValueError` message of lines 112–113. -/
def errNoLLMFunctionCaller : String :=
  "ValueError: You must provide an llm to prompt the function caller!"

/-- `FunctionCaller.get_function` (lines 94–145).

`safe_read_json` (imported from `llm_axe.core`) is the `parse` parameter.
Returns `(result-or-None, transcripts passed to llm.ask, warnings,
self after the call)`; the method assigns no attribute, so the returned
state is the input state.  A non-string `"function"` value that is
hashable (string/number/bool/null) is simply not a key of the
string-keyed dict, taking the line-136 branch; an unhashable value
(list/dict) makes `not in` raise `TypeError`. -/
def FunctionCaller.get_function (fc : FunctionCaller)
    (parse : String → Option JsonObj) (question : String) :
    Except String (Option GetFunctionResult × List (List Message) × List String × FunctionCaller) :=
  match fc.llm with
  | none => Except.error errNoLLMFunctionCaller
  | some client =>
    match client.ask? with
    | none => Except.ok (none, [], [warnNoAsk], fc)
    | some ask =>
      let user_prompt : Message := ⟨"user", question⟩
      let prompts := [fc.system_prompt, user_prompt]
      let response := ask prompts
      match parse response with
      | none => Except.ok (none, [prompts], [], fc)
      | some response_json =>
        match jsonLookup response_json "function",
              jsonLookup response_json "parameters" with
        | some functionVal, some parameters =>
          match functionVal with
          | JsonVal.str function_name =>
            match fc.functions_dict function_name with
            | none =>
              Except.ok (none, [prompts], [warnInvalidFunction function_name], fc)
            | some f =>
              Except.ok (some ⟨f, parameters, prompts, response⟩, [prompts], [], fc)
          | JsonVal.num n =>
            Except.ok (none, [prompts], [warnInvalidFunction (toString n)], fc)
          | JsonVal.bool b =>
            Except.ok (none, [prompts], [warnInvalidFunction (pyStr (JsonVal.bool b))], fc)
          | JsonVal.null =>
            Except.ok (none, [prompts], [warnInvalidFunction "None"], fc)
          | JsonVal.arr _ => Except.error "TypeError: unhashable type"
          | JsonVal.obj _ => Except.error "TypeError: unhashable type"
        | _, _ =>
          Except.ok (none, [prompts], [warnNoFunctionKeys], fc)

/-! ## PdfReader (`agents.py` lines 6–60) -/

/-- Python's dynamically-typed `self.system_prompt` of `PdfReader`: a raw
template string right after `__init__` (line 23), a role-tagged message
dict after `get_prompt` has run (lines 54–55). -/
inductive PromptVal where
  | str (s : String)
  | msg (m : Message)
  deriving DecidableEq, Repr

/-- The `PdfReader` instance state. -/
structure PdfReader where
  llm : Option LLMClient
  pdf_files : Option (List String)
  additional_instructions : String
  system_prompt : PromptVal
  custom_system_prompt : Option String

/-- `PdfReader.__init__` (lines 11–24).  `docTemplate` is the string
returned by `get_yaml_prompt("system_prompts.yaml", "DocumentReader")`. -/
def PdfReader.init (llm : Option LLMClient) (pdf_files : Option (List String))
    (additional_system_instructions : String)
    (custom_system_prompt : Option String) (docTemplate : String) : PdfReader :=
  { llm := llm
    pdf_files := pdf_files
    additional_instructions := additional_system_instructions
    system_prompt := PromptVal.str docTemplate
    custom_system_prompt := custom_system_prompt }

/-- `TypeError` raised by `for pdf_file in pdf_files:` when the call-site
argument defaulted to `None` (line 45). -/
def errIterateNone : String :=
  "TypeError: NoneType object is not iterable"

/-- `ValueError` of line 32. -/
def errNoLLMPdfReader : String := "ValueError: No LLM object provided."

/-- The `pdf_text` accumulation loop of lines 44–47.  `read_pdf` is the
document-read collaborator from `llm_axe.core`. -/
def pdfText (read_pdf : String → String) (files : List String) : String :=
  files.foldl
    (fun acc f =>
      acc ++ "Contents of document " ++ basename f ++ " :\n" ++ read_pdf f ++ "\n\n")
    ""

/-- `PdfReader.get_prompt` (lines 37–60).  The method iterates only its
`pdf_files` argument (never `self.pdf_files`) and reassigns
`self.system_prompt` twice (lines 49–55); the net reassignment is
reflected in the returned state. -/
def PdfReader.get_prompt (rdr : PdfReader) (read_pdf : String → String)
    (docTemplate : String) (question : String)
    (pdf_files : Option (List String)) :
    Except String (List Message × PdfReader) :=
  match pdf_files with
  | none => Except.error errIterateNone
  | some files =>
    let pdf_text := pdfText read_pdf files
    let base := match rdr.custom_system_prompt with
      | none => docTemplate
      | some c => c
    let sysMsg : Message :=
      ⟨"system",
        substPlaceholder (substPlaceholder base "documents" pdf_text)
          "additional_instructions" rdr.additional_instructions⟩
    let user_prompt : Message := ⟨"user", question⟩
    Except.ok ([sysMsg, user_prompt], { rdr with system_prompt := PromptVal.msg sysMsg })

/-- `PdfReader.ask` (lines 27–35): `ValueError` when `self.llm is None`,
then `get_prompt`, then `self.llm.ask(prompts)` (an `ask`-less client
raises `AttributeError` at that point — no `hasattr` guard here).
Returns `(response, transcripts passed to llm.ask, self after the call)`. -/
def PdfReader.ask (rdr : PdfReader) (read_pdf : String → String)
    (docTemplate : String) (question : String)
    (pdf_files : Option (List String)) :
    Except String (String × List (List Message) × PdfReader) :=
  match rdr.llm with
  | none => Except.error errNoLLMPdfReader
  | some client =>
    (rdr.get_prompt read_pdf docTemplate question pdf_files).bind
      (fun pr =>
        match client.ask? with
        | none => Except.error "AttributeError: ask"
        | some ask => Except.ok (ask pr.1, [pr.1], pr.2))

/-! ## Agent (`agents.py` lines 250–283) -/

/-- The `Agent` instance state after `__init__`. -/
structure Agent where
  llm : LLMClient
  system_prompt : Message

/-- `Agent.__init__` (lines 254–271) after the template/custom prompt has
been resolved: `base` is either `get_yaml_prompt("system_prompts.yaml",
agent_type.value)` or the supplied `custom_system_prompt` (supplying
neither raises `ValueError` before this point, line 264). -/
def Agent.init (llm : LLMClient) (base : String)
    (additional_system_instructions : String) : Agent :=
  { llm := llm
    system_prompt :=
      ⟨"system",
        substPlaceholder base "additional_instructions"
          additional_system_instructions⟩ }

/-- `Agent.ask` (lines 278–283): warn + `None` when the client lacks
`ask`, else one call on `[system_prompt, user]`.  Returns `(result,
transcripts passed to llm.ask, warnings, self after the call)`. -/
def Agent.ask (a : Agent) (prompt : String) :
    Option String × List (List Message) × List String × Agent :=
  match a.llm.ask? with
  | none => (none, [], [warnNoAsk], a)
  | some ask =>
    let prompts := [a.system_prompt, (⟨"user", prompt⟩ : Message)]
    (some (ask prompts), [prompts], [], a)

/-! ## OnlineAgent (`agents.py` lines 169–247) -/

/-- The `OnlineAgent` instance state after `__init__`.  The source calls
`self.llm.ask(...)` with no `hasattr` guard, so the client's `ask`
method is modelled directly as a function (an `ask`-less client would
raise `AttributeError` inside `get_search_query`; no claim concerns it).
`search_function` receives whatever JSON value stage 1 extracted. -/
structure OnlineAgent where
  ask : List Message → String
  system_prompt : Message
  search_function : JsonVal → List String

/-- `OnlineAgent.__init__` (lines 175–186).  `onlineTemplate` is
`get_yaml_prompt("system_prompts.yaml", "OnlineSearcher")`;
`internet_search` (the default searcher collaborator) is a parameter. -/
def OnlineAgent.init (ask : List Message → String)
    (additional_system_instructions : String)
    (custom_searcher : Option (JsonVal → List String))
    (onlineTemplate : String) (internet_search : JsonVal → List String) :
    OnlineAgent :=
  { ask := ask
    system_prompt :=
      ⟨"system",
        substPlaceholder onlineTemplate "additional_instructions"
          additional_system_instructions⟩
    search_function :=
      match custom_searcher with
      | some f => f
      | none => internet_search }

/-- Python's `is None` test.  JSON `null` parses to Python `None`, so the
`None` the method returns on a missing key and a present-but-`null`
`search_query` value are the same Python value, `JsonVal.null` here. -/
def JsonVal.isNone : JsonVal → Bool
  | JsonVal.null => true
  | _ => false

/-- `OnlineAgent.get_search_query` (lines 238–247).  Returns the Python
value `response_json["search_query"]` — which is `None` (`JsonVal.null`)
both when the key is absent or the response unparseable (the explicit
`return None`, line 247) and when the key's value is JSON `null` — and
the transcripts passed to `llm.ask`. -/
def OnlineAgent.get_search_query (oa : OnlineAgent)
    (parse : String → Option JsonObj) (question : String) :
    JsonVal × List (List Message) :=
  let user_prompt : Message := ⟨"user", question⟩
  let prompts := [oa.system_prompt, user_prompt]
  let response := oa.ask prompts
  match parse response with
  | some response_json =>
    match jsonLookup response_json "search_query" with
    | some q => (q, [prompts])
    | none => (JsonVal.null, [prompts])
  | none => (JsonVal.null, [prompts])

/-- Warning message of line 219. -/
def warnNoUrl : String := "LLM did not respond with valid url or json response."

/-- The f-string user prompt of lines 223–233 (indentation whitespace of
the Python triple-quoted literal compressed; no claim depends on it). -/
def searchUserPrompt (url websiteText prompt : String) : String :=
  "\nPlease read the following information:\n\nInformation about Website " ++
    url ++ ": \n" ++ websiteText ++
    "\n\nAnswer the following question based on the above information: \n" ++
    prompt ++
    "\n\nStart your answer with \"Based on information from the internet, \"\n"

/-- Everything observable about one `OnlineAgent.search` invocation:
its return value, the transcripts passed to `llm.ask` in order, the
arguments passed to the search collaborator, the arguments passed to
`read_website`, the warnings emitted, and the agent state afterwards
(`search` assigns no attribute). -/
structure SearchTrace where
  result : Option String
  askCalls : List (List Message)
  searchCalls : List JsonVal
  readCalls : List JsonVal
  warnings : List String
  finalAgent : OnlineAgent

/-- `OnlineAgent.search` (lines 188–236).  `urlTemplate` is
`get_yaml_prompt("system_prompts.yaml", "UrlPicker")` (fetched at call
time, line 209); `genericTemplate` is the `GENERIC_RESPONDER` template
used by the stage-4 `Agent` (line 235); `read_website` is the
webpage-fetch collaborator. -/
def OnlineAgent.search (oa : OnlineAgent) (parse : String → Option JsonObj)
    (read_website : JsonVal → String) (urlTemplate genericTemplate : String)
    (prompt : String) : SearchTrace :=
  match oa.get_search_query parse prompt with
  | (query, calls1) =>
    if query.isNone then ⟨none, calls1, [], [], [], oa⟩
    else
    let search_results := oa.search_function query
    let joined := String.intercalate " " search_results
    let url_picker_prompt : Message :=
      ⟨"system",
        substPlaceholder (substPlaceholder urlTemplate "question" prompt)
          "urls" joined⟩
    let resp := oa.ask [url_picker_prompt]
    match (parse resp).bind (fun rj => jsonLookup rj "url") with
    | none =>
      ⟨none, calls1 ++ [[url_picker_prompt]], [query], [], [warnNoUrl], oa⟩
    | some url =>
      let website_text := read_website url
      let user_prompt := searchUserPrompt (pyStr url) website_text prompt
      let final_responder := Agent.init ⟨some oa.ask⟩ genericTemplate ""
      let answer := final_responder.ask user_prompt
      ⟨answer.1, calls1 ++ [[url_picker_prompt]] ++ answer.2.1, [query], [url],
        [], oa⟩

/-! ## Helper definitions for the claim statements -/

/-- The transcripts a `get_function` call passed to `llm.ask` (none when
the call raised). -/
def gfCalls (e : Except String (Option GetFunctionResult × List (List Message) × List String × FunctionCaller)) :
    List (List Message) :=
  match e with
  | Except.ok r => r.2.1
  | Except.error _ => []

/-- The outcome of a `get_function` call: `some v` when the call returned
normally with value `v` (itself `none` for Python `None`), `none` when it
raised an exception. -/
def gfOutcome (e : Except String (Option GetFunctionResult × List (List Message) × List String × FunctionCaller)) :
    Option (Option GetFunctionResult) :=
  match e with
  | Except.ok r => some r.1
  | Except.error _ => none

/-- The observable output of a `PdfReader.ask` call: the response, the
transcripts passed to `llm.ask`, and the stored system prompt afterwards
(everything except the rest of the returned state). -/
def pdfAskObs (e : Except String (String × List (List Message) × PdfReader)) :
    Except String (String × List (List Message) × PromptVal) :=
  e.map (fun r => (r.1, r.2.1, r.2.2.system_prompt))

/-- A transcript of exactly one system message followed by one user
message. -/
def isSysUser (t : List Message) : Prop :=
  ∃ s u, t = [s, u] ∧ s.role = "system" ∧ u.role = "user"

/-- A transcript of exactly one system message and nothing else. -/
def isLoneSystem (t : List Message) : Prop :=
  ∃ s, t = [s] ∧ s.role = "system"

/-! ## Claim theorems -/

/-- Characterization of the dict built by line 83: lookup returns the
last function in list order bearing the looked-up name. -/
theorem buildFunctionsDict_eq_findLast (functions : List PyFunc)
    (d : String → Option PyFunc) (n : String) :
    (functions.foldl (fun d f => fun m => if f.name == m then some f else d m) d) n =
      ((functions.reverse.find? (fun f => f.name == n)).or (d n)) := by
  induction functions generalizing d with
  | nil => rfl
  | cons f fs ih =>
    simp only [List.foldl_cons, List.reverse_cons, List.find?_append]
    rw [ih]
    cases h : fs.reverse.find? (fun g => g.name == n) with
    | some g => simp [Option.or]
    | none =>
      cases hb : f.name == n with
      | true => simp [Option.or, List.find?, hb]
      | false => simp [Option.or, List.find?, hb]

/-- C5: the registry built at `FunctionCaller` construction maps every
supplied function's name to a function, and on duplicate names the later
function in list order wins (no error is raised). -/
theorem functionsDict_last_wins (llm : Option LLMClient)
    (functions : List PyFunc) (add : String) (custom : Option String)
    (fcTemplate : String) :
    (∀ n, (FunctionCaller.init llm functions add custom fcTemplate).functions_dict n =
        functions.reverse.find? (fun f => f.name == n)) ∧
    (∀ f ∈ functions, ∃ g ∈ functions, g.name = f.name ∧
        (FunctionCaller.init llm functions add custom fcTemplate).functions_dict f.name = some g) := by
  have hdict : (FunctionCaller.init llm functions add custom fcTemplate).functions_dict =
      buildFunctionsDict functions := rfl
  constructor
  · intro n
    rw [hdict]
    unfold buildFunctionsDict
    rw [buildFunctionsDict_eq_findLast]
    cases functions.reverse.find? (fun f => f.name == n) <;> simp [Option.or]
  · intro f hf
    have hsome : (functions.reverse.find? (fun g => g.name == f.name)).isSome := by
      rw [List.find?_isSome]
      exact ⟨f, List.mem_reverse.mpr hf, by simp⟩
    obtain ⟨g, hg⟩ := Option.isSome_iff_exists.mp hsome
    refine ⟨g, List.mem_reverse.mp (List.mem_of_find?_eq_some hg), ?_, ?_⟩
    · have h2 := List.find?_some hg
      simp only [] at h2
      exact eq_of_beq h2
    · rw [hdict]
      unfold buildFunctionsDict
      rw [buildFunctionsDict_eq_findLast, hg]
      rfl

/-- Witness for C5: with duplicate registrations of the name `dup`, the
registry resolves `dup` to a function of that name; direct evaluation
shows it is the later one, with id 2. -/
theorem functionsDict_last_wins_witness :
    (∃ g ∈ [PyFunc.mk "dup" 0, PyFunc.mk "other" 1, PyFunc.mk "dup" 2],
        g.name = "dup" ∧
        (FunctionCaller.init none [PyFunc.mk "dup" 0, PyFunc.mk "other" 1, PyFunc.mk "dup" 2]
          "" none "T").functions_dict "dup" = some g) ∧
    (FunctionCaller.init none [PyFunc.mk "dup" 0, PyFunc.mk "other" 1, PyFunc.mk "dup" 2]
        "" none "T").functions_dict "dup" = some (PyFunc.mk "dup" 2) :=
  ⟨(functionsDict_last_wins none _ "" none "T").2 (PyFunc.mk "dup" 0) (by simp),
   by decide⟩

/-- C1: whenever the parsed response yields no JSON object, or an object
lacking the `"function"` or `"parameters"` key, or one naming an
unregistered function, `get_function` returns Python `None` normally
(never an exception). -/
theorem get_function_failure_returns_none (fc : FunctionCaller)
    (client : LLMClient) (ask : List Message → String)
    (parse : String → Option JsonObj) (question : String)
    (hllm : fc.llm = some client) (hask : client.ask? = some ask)
    (hfail :
      parse (ask [fc.system_prompt, ⟨"user", question⟩]) = none ∨
      (∃ rj, parse (ask [fc.system_prompt, ⟨"user", question⟩]) = some rj ∧
        (jsonLookup rj "function" = none ∨ jsonLookup rj "parameters" = none)) ∨
      (∃ rj name params,
        parse (ask [fc.system_prompt, ⟨"user", question⟩]) = some rj ∧
        jsonLookup rj "function" = some (JsonVal.str name) ∧
        jsonLookup rj "parameters" = some params ∧
        fc.functions_dict name = none)) :
    gfOutcome (fc.get_function parse question) = some none := by
  rcases hfail with h | ⟨rj, hrj, hf | hp⟩ | ⟨rj, name, params, hrj, hfn, hp, hdict⟩
  · simp [FunctionCaller.get_function, hllm, hask, h, gfOutcome]
  · simp [FunctionCaller.get_function, hllm, hask, hrj, hf, gfOutcome]
  · cases hfv : jsonLookup rj "function" with
    | none => simp [FunctionCaller.get_function, hllm, hask, hrj, hfv, gfOutcome]
    | some v =>
      cases v <;>
        simp [FunctionCaller.get_function, hllm, hask, hrj, hfv, hp, gfOutcome]
  · simp [FunctionCaller.get_function, hllm, hask, hrj, hfn, hp, hdict, gfOutcome]

/-- Witness for C1: a caller with one registered function and a client
whose response parses to no JSON object returns Python `None` normally. -/
theorem get_function_failure_returns_none_witness :
    gfOutcome ((FunctionCaller.init (some ⟨some fun _ => "no json here"⟩)
        [PyFunc.mk "get_weather" 0] "" none "T").get_function
      (fun _ => none) "What is the weather?") = some none :=
  get_function_failure_returns_none
    (FunctionCaller.init (some ⟨some fun _ => "no json here"⟩)
      [PyFunc.mk "get_weather" 0] "" none "T")
    ⟨some fun _ => "no json here"⟩ (fun _ => "no json here")
    (fun _ => none) "What is the weather?" rfl rfl (Or.inl rfl)

/-- C2: when the parsed response names a registered function,
`get_function` returns the dict bundling the registry's callable for that
name, the parameter map exactly as parsed, the two-message transcript
that was sent, and the raw response text. -/
theorem get_function_success (fc : FunctionCaller) (client : LLMClient)
    (ask : List Message → String) (parse : String → Option JsonObj)
    (question : String) (rj : JsonObj) (name : String) (params : JsonVal)
    (f : PyFunc)
    (hllm : fc.llm = some client) (hask : client.ask? = some ask)
    (hparse : parse (ask [fc.system_prompt, ⟨"user", question⟩]) = some rj)
    (hfn : jsonLookup rj "function" = some (JsonVal.str name))
    (hp : jsonLookup rj "parameters" = some params)
    (hdict : fc.functions_dict name = some f) :
    fc.get_function parse question =
      Except.ok
        (some ⟨f, params, [fc.system_prompt, ⟨"user", question⟩],
          ask [fc.system_prompt, ⟨"user", question⟩]⟩,
        [[fc.system_prompt, ⟨"user", question⟩]], [], fc) := by
  simp [FunctionCaller.get_function, hllm, hask, hparse, hfn, hp, hdict]

/-- Witness for C2: the registry contains `get_weather` and the client
responds with the Paris decision; the result's function is the
registered `get_weather` and its parameters are exactly
`{"city": "Paris"}`. -/
theorem get_function_success_witness :
    (FunctionCaller.init (some ⟨some fun _ => "\x7b\"function\":\"get_weather\",\"parameters\":\x7b\"city\":\"Paris\"\x7d\x7d"⟩)
        [PyFunc.mk "get_weather" 0] "" none "T").get_function
      (fun _ => some [("function", JsonVal.str "get_weather"),
        ("parameters", JsonVal.obj [("city", JsonVal.str "Paris")])])
      "What's the weather in Paris?" =
    Except.ok
      (some ⟨PyFunc.mk "get_weather" 0,
        JsonVal.obj [("city", JsonVal.str "Paris")],
        [(FunctionCaller.init (some ⟨some fun _ => "\x7b\"function\":\"get_weather\",\"parameters\":\x7b\"city\":\"Paris\"\x7d\x7d"⟩)
            [PyFunc.mk "get_weather" 0] "" none "T").system_prompt,
          ⟨"user", "What's the weather in Paris?"⟩],
        "\x7b\"function\":\"get_weather\",\"parameters\":\x7b\"city\":\"Paris\"\x7d\x7d"⟩,
      [[(FunctionCaller.init (some ⟨some fun _ => "\x7b\"function\":\"get_weather\",\"parameters\":\x7b\"city\":\"Paris\"\x7d\x7d"⟩)
            [PyFunc.mk "get_weather" 0] "" none "T").system_prompt,
        ⟨"user", "What's the weather in Paris?"⟩]], [],
      FunctionCaller.init (some ⟨some fun _ => "\x7b\"function\":\"get_weather\",\"parameters\":\x7b\"city\":\"Paris\"\x7d\x7d"⟩)
        [PyFunc.mk "get_weather" 0] "" none "T") :=
  get_function_success _ _ _ _ _
    [("function", JsonVal.str "get_weather"),
      ("parameters", JsonVal.obj [("city", JsonVal.str "Paris")])]
    "get_weather" (JsonVal.obj [("city", JsonVal.str "Paris")])
    (PyFunc.mk "get_weather" 0) rfl rfl rfl rfl rfl (by decide)

/-- C7 (amended): a missing LLM client raises `ValueError` at first use
in `FunctionCaller.get_function` and `PdfReader.ask`; a bound client
lacking the `ask` operation is NOT raised on — `FunctionCaller.get_function`
and `Agent.ask` emit the warning of line 117/280 and return `None`, the
same null result as the runtime failure cases. -/
theorem config_error_detection (fc : FunctionCaller) (client : LLMClient)
    (parse : String → Option JsonObj) (question : String) (rdr : PdfReader)
    (read_pdf : String → String) (docTemplate : String)
    (pdf_files : Option (List String)) (a : Agent) (p : String) :
    (fc.llm = none →
      fc.get_function parse question = Except.error errNoLLMFunctionCaller) ∧
    (fc.llm = some client → client.ask? = none →
      fc.get_function parse question = Except.ok (none, [], [warnNoAsk], fc)) ∧
    (rdr.llm = none →
      rdr.ask read_pdf docTemplate question pdf_files =
        Except.error errNoLLMPdfReader) ∧
    (a.llm.ask? = none → a.ask p = (none, [], [warnNoAsk], a)) := by
  refine ⟨fun h => ?_, fun h h2 => ?_, fun h => ?_, fun h => ?_⟩
  · simp [FunctionCaller.get_function, h]
  · simp [FunctionCaller.get_function, h, h2]
  · simp [PdfReader.ask, h]
  · simp [Agent.ask, h]

/-- Witness for C7 (amended): concrete instances of all four conjuncts. -/
theorem config_error_detection_witness :
    ((FunctionCaller.init none [] "" none "T").get_function (fun _ => none) "q" =
      Except.error errNoLLMFunctionCaller) ∧
    ((FunctionCaller.init (some ⟨none⟩) [] "" none "T").get_function (fun _ => none) "q" =
      Except.ok (none, [], [warnNoAsk], FunctionCaller.init (some ⟨none⟩) [] "" none "T")) ∧
    ((PdfReader.init none none "" none "T").ask (fun _ => "") "T" "q" (some []) =
      Except.error errNoLLMPdfReader) ∧
    ((Agent.init ⟨none⟩ "B" "").ask "q" =
      (none, [], [warnNoAsk], Agent.init ⟨none⟩ "B" "")) :=
  ⟨(config_error_detection (FunctionCaller.init none [] "" none "T") ⟨none⟩
      (fun _ => none) "q" (PdfReader.init none none "" none "T")
      (fun _ => "") "T" (some []) (Agent.init ⟨none⟩ "B" "") "q").1 rfl,
   (config_error_detection (FunctionCaller.init (some ⟨none⟩) [] "" none "T") ⟨none⟩
      (fun _ => none) "q" (PdfReader.init none none "" none "T")
      (fun _ => "") "T" (some []) (Agent.init ⟨none⟩ "B" "") "q").2.1 rfl rfl,
   (config_error_detection (FunctionCaller.init none [] "" none "T") ⟨none⟩
      (fun _ => none) "q" (PdfReader.init none none "" none "T")
      (fun _ => "") "T" (some []) (Agent.init ⟨none⟩ "B" "") "q").2.2.1 rfl,
   (config_error_detection (FunctionCaller.init none [] "" none "T") ⟨none⟩
      (fun _ => none) "q" (PdfReader.init none none "" none "T")
      (fun _ => "") "T" (some []) (Agent.init ⟨none⟩ "B" "") "q").2.2.2 rfl⟩

/-- Counterexample to C7 as stated: a `FunctionCaller` bound to a client
without an `ask` operation does not raise — `get_function` returns
normally with the null result `None` (plus a warning), exactly as for
the runtime failure cases, instead of failing loudly. -/
theorem config_error_not_raised_counterexample :
    (FunctionCaller.init (some ⟨none⟩) [PyFunc.mk "get_weather" 0] "" none "T").get_function
      (fun _ => none) "What is the weather?" =
    Except.ok (none, [], [warnNoAsk],
      FunctionCaller.init (some ⟨none⟩) [PyFunc.mk "get_weather" 0] "" none "T") := rfl

/-- C10: the `pdf_files` list supplied to the `PdfReader` constructor is
stored but never consulted: `ask` with a `None` `pdf_files` argument
raises `TypeError` (iterating `None`) whatever list was stored, and the
observable output of `ask` is identical for any two stored lists. -/
theorem pdf_files_constructor_arg_ignored (client : LLMClient)
    (stored stored' : Option (List String)) (add : String)
    (custom : Option String) (docTemplate : String)
    (read_pdf : String → String) (question : String)
    (arg : Option (List String)) :
    ((PdfReader.init (some client) stored add custom docTemplate).ask
        read_pdf docTemplate question none = Except.error errIterateNone) ∧
    (pdfAskObs ((PdfReader.init (some client) stored add custom docTemplate).ask
        read_pdf docTemplate question arg) =
      pdfAskObs ((PdfReader.init (some client) stored' add custom docTemplate).ask
        read_pdf docTemplate question arg)) := by
  constructor
  · rfl
  · cases arg with
    | none => rfl
    | some files =>
      cases h : client.ask? <;>
        simp [PdfReader.init, PdfReader.ask, PdfReader.get_prompt, pdfAskObs,
          Except.bind, Except.map, h]

/-- C9: repeating `PdfReader.ask` on the state left by a first successful
call, with identical arguments and collaborators, yields the identical
result (the mutated system prompt is recomputed from unchanged fields);
and `Agent.ask` repeated on the state it returns yields the identical
result. -/
theorem repeat_ask_deterministic (rdr : PdfReader)
    (read_pdf : String → String) (docTemplate question : String)
    (pdf_files : Option (List String)) (out : String)
    (calls : List (List Message)) (rdr' : PdfReader)
    (h : rdr.ask read_pdf docTemplate question pdf_files =
      Except.ok (out, calls, rdr'))
    (a : Agent) (p : String) :
    rdr'.ask read_pdf docTemplate question pdf_files =
      Except.ok (out, calls, rdr') ∧
    ((a.ask p).2.2.2).ask p = a.ask p := by
  constructor
  · rcases rdr with ⟨llm0, files0, add0, sp0, custom0⟩
    cases llm0 with
    | none => simp [PdfReader.ask] at h
    | some client =>
      cases pdf_files with
      | none => simp [PdfReader.ask, PdfReader.get_prompt, Except.bind] at h
      | some files =>
        cases hc : client.ask? with
        | none =>
          simp [PdfReader.ask, PdfReader.get_prompt, Except.bind, hc] at h
        | some askf =>
          simp [PdfReader.ask, PdfReader.get_prompt, Except.bind, hc] at h
          obtain ⟨h1, h2, h3⟩ := h
          subst h1
          subst h2
          subst h3
          simp [PdfReader.ask, PdfReader.get_prompt, Except.bind, hc]
  · cases ha : a.llm.ask? <;> simp [Agent.ask, ha]

/-- Witness for C9: a concrete second `PdfReader.ask` on the state left
by the first call reproduces the first call's output exactly, and a
concrete repeated `Agent.ask` is identical. -/
theorem repeat_ask_deterministic_witness :
    ((PdfReader.mk (some ⟨some fun _ => "ans"⟩) none ""
        (PromptVal.msg ⟨"system", "T"⟩) none).ask (fun _ => "") "T" "q" (some []) =
      Except.ok ("ans", [[⟨"system", "T"⟩, ⟨"user", "q"⟩]],
        PdfReader.mk (some ⟨some fun _ => "ans"⟩) none ""
          (PromptVal.msg ⟨"system", "T"⟩) none)) ∧
    (((Agent.init ⟨some fun _ => "out"⟩ "B" "").ask "p").2.2.2).ask "p" =
      (Agent.init ⟨some fun _ => "out"⟩ "B" "").ask "p" :=
  repeat_ask_deterministic
    (PdfReader.init (some ⟨some fun _ => "ans"⟩) none "" none "T")
    (fun _ => "") "T" "q" (some []) "ans" [[⟨"system", "T"⟩, ⟨"user", "q"⟩]]
    (PdfReader.mk (some ⟨some fun _ => "ans"⟩) none ""
      (PromptVal.msg ⟨"system", "T"⟩) none)
    rfl (Agent.init ⟨some fun _ => "out"⟩ "B" "") "p"

/-- C8 (amended): the system prompt of `FunctionCaller`, `OnlineAgent`
and `Agent` is assembled at construction and never changed by their
operations (which perform no attribute assignment); `PdfReader`,
however, overwrites its stored `system_prompt` on every successful
`get_prompt` (hence `ask`) with the freshly formatted system message, so
afterwards it is a message value, never the raw template string stored
at construction. -/
theorem system_prompt_mutation :
    (∀ (rdr : PdfReader) (read_pdf : String → String)
        (docTemplate question : String) (files : Option (List String))
        (ps : List Message) (rdr' : PdfReader),
      rdr.get_prompt read_pdf docTemplate question files = Except.ok (ps, rdr') →
        ∃ m, rdr'.system_prompt = PromptVal.msg m ∧
          ∀ s, rdr'.system_prompt ≠ PromptVal.str s) ∧
    (∀ (fc : FunctionCaller) (parse : String → Option JsonObj) (q : String) r,
      fc.get_function parse q = Except.ok r → r.2.2.2 = fc) ∧
    (∀ (a : Agent) (p : String), ((a.ask p).2.2.2) = a) ∧
    (∀ (oa : OnlineAgent) (parse : String → Option JsonObj)
        (read_website : JsonVal → String) (UT GT q : String),
      (oa.search parse read_website UT GT q).finalAgent = oa) := by
  refine ⟨?_, ?_, ?_, ?_⟩
  · intro rdr read_pdf docTemplate question files ps rdr' h
    cases files with
    | none => simp [PdfReader.get_prompt] at h
    | some fs =>
      simp [PdfReader.get_prompt] at h
      obtain ⟨-, h2⟩ := h
      subst h2
      exact ⟨_, rfl, fun s hs => by simp at hs⟩
  · intro fc parse q r h
    rcases fc with ⟨llm0, dict0, add0, schema0, sp0⟩
    cases llm0 with
    | none => simp [FunctionCaller.get_function] at h
    | some client =>
      cases hc : client.ask? with
      | none =>
        simp [FunctionCaller.get_function, hc] at h
        simp [← h]
      | some askf =>
        simp only [FunctionCaller.get_function, hc] at h
        cases hp : parse (askf [sp0, ⟨"user", q⟩]) with
        | none =>
          simp [hp] at h
          simp [← h]
        | some rj =>
          simp only [hp] at h
          cases hf : jsonLookup rj "function" with
          | none =>
            simp [hf] at h
            simp [← h]
          | some fv =>
            cases hpar : jsonLookup rj "parameters" with
            | none =>
              simp [hf, hpar] at h
              simp [← h]
            | some params =>
              simp only [hf, hpar] at h
              cases fv with
              | str nm =>
                cases hd : dict0 nm with
                | none =>
                  simp [hd] at h
                  simp [← h]
                | some f0 =>
                  simp [hd] at h
                  simp [← h]
              | num n => simp at h; simp [← h]
              | bool b => simp at h; simp [← h]
              | null => simp at h; simp [← h]
              | arr xs => simp at h
              | obj kvs => simp at h
  · intro a p
    cases ha : a.llm.ask? <;> simp [Agent.ask, ha]
  · intro oa parse read_website UT GT q
    rcases hq : oa.get_search_query parse q with ⟨qres, calls⟩
    simp only [OnlineAgent.search, hq]
    cases hn : qres.isNone with
    | true => simp [hn]
    | false =>
      simp only [hn, Bool.false_eq_true, if_false]
      split <;> simp [Agent.ask, Agent.init]

/-- Counterexample to C8 as stated: a concrete `PdfReader` stores the raw
template string `"T"` as its system prompt at construction, but after
`get_prompt` returns, the stored system prompt is the formatted message,
which differs from the construction-time value. -/
theorem system_prompt_mutation_counterexample :
    ((PdfReader.init (some ⟨some fun _ => "x"⟩) none "" none "T").system_prompt =
      PromptVal.str "T") ∧
    ((PdfReader.init (some ⟨some fun _ => "x"⟩) none "" none "T").get_prompt
        (fun _ => "") "T" "q" (some []) =
      Except.ok ([⟨"system", "T"⟩, ⟨"user", "q"⟩],
        PdfReader.mk (some ⟨some fun _ => "x"⟩) none ""
          (PromptVal.msg ⟨"system", "T"⟩) none)) ∧
    PromptVal.msg ⟨"system", "T"⟩ ≠ PromptVal.str "T" :=
  ⟨rfl, rfl, by decide⟩

/-- Witness for C8 (amended): after a concrete successful `get_prompt`,
the stored system prompt is a formatted message value. -/
theorem system_prompt_mutation_witness :
    ∃ m, (PdfReader.mk (some ⟨some fun _ => "y"⟩) none ""
        (PromptVal.msg ⟨"system", "U"⟩) none).system_prompt = PromptVal.msg m := by
  obtain ⟨m, hm, -⟩ := system_prompt_mutation.1
    (PdfReader.init (some ⟨some fun _ => "y"⟩) none "" none "U")
    (fun _ => "") "U" "q" (some []) [⟨"system", "U"⟩, ⟨"user", "q"⟩]
    (PdfReader.mk (some ⟨some fun _ => "y"⟩) none ""
      (PromptVal.msg ⟨"system", "U"⟩) none) rfl
  exact ⟨m, hm⟩

/-- C4: when the stage-1 response yields no JSON object or one lacking
the `"search_query"` key, `search` returns `None` having passed nothing
to the search collaborator (zero invocations) — the pipeline
short-circuits before stage 2. -/
theorem search_short_circuits_before_search (oa : OnlineAgent)
    (parse : String → Option JsonObj) (read_website : JsonVal → String)
    (urlTemplate genericTemplate question : String)
    (hfail :
      parse (oa.ask [oa.system_prompt, ⟨"user", question⟩]) = none ∨
      ∃ rj, parse (oa.ask [oa.system_prompt, ⟨"user", question⟩]) = some rj ∧
        jsonLookup rj "search_query" = none) :
    (oa.search parse read_website urlTemplate genericTemplate question).result =
      none ∧
    (oa.search parse read_website urlTemplate genericTemplate question).searchCalls =
      [] := by
  have hq : oa.get_search_query parse question =
      (JsonVal.null, [[oa.system_prompt, ⟨"user", question⟩]]) := by
    rcases hfail with h | ⟨rj, hrj, hk⟩
    · simp [OnlineAgent.get_search_query, h]
    · simp [OnlineAgent.get_search_query, hrj, hk]
  simp [OnlineAgent.search, hq, JsonVal.isNone]

/-- Witness for C4: a client whose stage-1 response parses to an object
without a `"search_query"` key makes `search` return `None` with an
empty list of search-collaborator calls. -/
theorem search_short_circuits_before_search_witness :
    ((OnlineAgent.init (fun _ => "resp") "" none "OT"
        (fun _ => ["http://a.example"])).search
      (fun _ => some [("note", JsonVal.str "no query")]) (fun _ => "") "UT" "GT"
      "capital of France?").result = none ∧
    ((OnlineAgent.init (fun _ => "resp") "" none "OT"
        (fun _ => ["http://a.example"])).search
      (fun _ => some [("note", JsonVal.str "no query")]) (fun _ => "") "UT" "GT"
      "capital of France?").searchCalls = [] :=
  search_short_circuits_before_search
    (OnlineAgent.init (fun _ => "resp") "" none "OT" (fun _ => ["http://a.example"]))
    (fun _ => some [("note", JsonVal.str "no query")]) (fun _ => "") "UT" "GT"
    "capital of France?"
    (Or.inr ⟨[("note", JsonVal.str "no query")], rfl, rfl⟩)

/-- C6: when stage 1 succeeds (the extracted `search_query` value is not
Python `None`, so the line-204 `if query is None` guard is passed) but
the stage-3 (URL-picker) response yields no JSON object or one lacking
the `"url"` key, `search` emits the line-219 warning and returns `None`,
passing nothing to `read_website` and making no stage-4 LLM call (the
trace holds exactly the stage-1 and stage-3 transcripts). -/
theorem search_stage3_failure_warns_and_aborts (oa : OnlineAgent)
    (parse : String → Option JsonObj) (read_website : JsonVal → String)
    (urlTemplate genericTemplate question : String) (rj1 : JsonObj)
    (queryVal : JsonVal)
    (h1 : parse (oa.ask [oa.system_prompt, ⟨"user", question⟩]) = some rj1)
    (h2 : jsonLookup rj1 "search_query" = some queryVal)
    (hq_not_none : queryVal.isNone = false)
    (h3 : (parse (oa.ask [⟨"system",
        substPlaceholder (substPlaceholder urlTemplate "question" question)
          "urls" (String.intercalate " " (oa.search_function queryVal))⟩])).bind
      (fun rj => jsonLookup rj "url") = none) :
    oa.search parse read_website urlTemplate genericTemplate question =
      ⟨none,
        [[oa.system_prompt, ⟨"user", question⟩],
          [⟨"system",
            substPlaceholder (substPlaceholder urlTemplate "question" question)
              "urls" (String.intercalate " " (oa.search_function queryVal))⟩]],
        [queryVal], [], [warnNoUrl], oa⟩ := by
  have hq : oa.get_search_query parse question =
      (queryVal, [[oa.system_prompt, ⟨"user", question⟩]]) := by
    simp [OnlineAgent.get_search_query, h1, h2]
  simp [OnlineAgent.search, hq, hq_not_none, h3]

/-- Witness for C6: a concrete run in which stage 1 extracts a query but
the stage-3 response parses to nothing: the trace shows the `None`
result, the warning, no webpage fetch, and only the two transcripts. -/
theorem search_stage3_failure_warns_and_aborts_witness :
    (OnlineAgent.init (fun ms => if ms.length == 2 then "r1" else "r2") "" none
        "OT" (fun _ => ["http://a.example", "http://b.example"])).search
      (fun s => if s == "r1"
        then some [("search_query", JsonVal.str "capital of France")] else none)
      (fun _ => "") "UT" "GT" "q" =
    ⟨none, [[⟨"system", "OT"⟩, ⟨"user", "q"⟩], [⟨"system", "UT"⟩]],
      [JsonVal.str "capital of France"], [], [warnNoUrl],
      OnlineAgent.init (fun ms => if ms.length == 2 then "r1" else "r2") "" none
        "OT" (fun _ => ["http://a.example", "http://b.example"])⟩ :=
  search_stage3_failure_warns_and_aborts
    (OnlineAgent.init (fun ms => if ms.length == 2 then "r1" else "r2") "" none
      "OT" (fun _ => ["http://a.example", "http://b.example"]))
    (fun s => if s == "r1"
      then some [("search_query", JsonVal.str "capital of France")] else none)
    (fun _ => "") "UT" "GT" "q" [("search_query", JsonVal.str "capital of France")]
    (JsonVal.str "capital of France") rfl rfl rfl rfl

/-- Every transcript `get_function` passes to `llm.ask` is the
two-message `[system_prompt, user]` list (or none was passed at all). -/
theorem gf_calls_sub (fc : FunctionCaller) (parse : String → Option JsonObj)
    (question : String)
    (r : Option GetFunctionResult × List (List Message) × List String × FunctionCaller)
    (h : fc.get_function parse question = Except.ok r) :
    r.2.1 = [] ∨ r.2.1 = [[fc.system_prompt, ⟨"user", question⟩]] := by
  simp only [FunctionCaller.get_function] at h
  repeat' split at h
  all_goals
    first
    | (injection h with h2; subst h2; simp)
    | injection h

/-- The stage-1 helper always passes exactly the one two-message
transcript to `llm.ask`, whatever the parse outcome. -/
theorem gsq_calls (oa : OnlineAgent) (parse : String → Option JsonObj)
    (question : String) :
    (oa.get_search_query parse question).2 =
      [[oa.system_prompt, ⟨"user", question⟩]] := by
  simp only [OnlineAgent.get_search_query]
  cases h : parse (oa.ask [oa.system_prompt, ⟨"user", question⟩]) with
  | none => simp [h]
  | some rj => cases h2 : jsonLookup rj "search_query" <;> simp [h, h2]

/-- C3 (amended): every transcript passed to the bound client's `ask` by
`FunctionCaller.get_function`, `PdfReader.ask` and `Agent.ask` is exactly
one system message followed by one user message; `OnlineAgent.search`
obeys the same shape for its stage-1 and stage-4 calls, but its stage-3
URL-picker call passes a single system message with no user message
(line 211: `self.llm.ask([url_picker_prompt])`). -/
theorem transcripts_two_messages :
    (∀ (llm : Option LLMClient) (functions : List PyFunc) (add : String)
        (custom : Option String) (fcTemplate : String)
        (parse : String → Option JsonObj) (question : String) r,
      (FunctionCaller.init llm functions add custom fcTemplate).get_function
          parse question = Except.ok r →
        ∀ t ∈ r.2.1, isSysUser t) ∧
    (∀ (rdr : PdfReader) (read_pdf : String → String)
        (docTemplate question : String) (files : Option (List String)) out,
      rdr.ask read_pdf docTemplate question files = Except.ok out →
        ∀ t ∈ out.2.1, isSysUser t) ∧
    (∀ (llm : LLMClient) (base add prompt : String),
      ∀ t ∈ ((Agent.init llm base add).ask prompt).2.1, isSysUser t) ∧
    (∀ (ask : List Message → String) (add : String)
        (cs : Option (JsonVal → List String)) (onlineTemplate : String)
        (internet_search : JsonVal → List String)
        (parse : String → Option JsonObj) (read_website : JsonVal → String)
        (urlTemplate genericTemplate question : String),
      (∃ t1, ((OnlineAgent.init ask add cs onlineTemplate internet_search).search
          parse read_website urlTemplate genericTemplate question).askCalls =
            [t1] ∧ isSysUser t1) ∨
      (∃ t1 t2, ((OnlineAgent.init ask add cs onlineTemplate internet_search).search
          parse read_website urlTemplate genericTemplate question).askCalls =
            [t1, t2] ∧ isSysUser t1 ∧ isLoneSystem t2) ∨
      (∃ t1 t2 t3, ((OnlineAgent.init ask add cs onlineTemplate internet_search).search
          parse read_website urlTemplate genericTemplate question).askCalls =
            [t1, t2, t3] ∧ isSysUser t1 ∧ isLoneSystem t2 ∧ isSysUser t3)) := by
  refine ⟨?_, ?_, ?_, ?_⟩
  · intro llm functions add custom fcTemplate parse question r h t ht
    rcases gf_calls_sub _ parse question r h with hc | hc
    · rw [hc] at ht
      simp at ht
    · rw [hc] at ht
      simp at ht
      subst ht
      exact ⟨_, _, rfl, rfl, rfl⟩
  · intro rdr read_pdf docTemplate question files out h t ht
    rcases rdr with ⟨llm0, files0, add0, sp0, custom0⟩
    cases llm0 with
    | none => simp [PdfReader.ask] at h
    | some client =>
      cases files with
      | none => simp [PdfReader.ask, PdfReader.get_prompt, Except.bind] at h
      | some fs =>
        cases hc : client.ask? with
        | none =>
          simp [PdfReader.ask, PdfReader.get_prompt, Except.bind, hc] at h
        | some askf =>
          rcases out with ⟨o1, o2, o3⟩
          simp [PdfReader.ask, PdfReader.get_prompt, Except.bind, hc] at h
          obtain ⟨-, h2, -⟩ := h
          subst h2
          simp at ht
          subst ht
          exact ⟨_, _, rfl, rfl, rfl⟩
  · intro llm base add prompt t ht
    cases hc : llm.ask? with
    | none => simp [Agent.ask, Agent.init, hc] at ht
    | some askf =>
      simp [Agent.ask, Agent.init, hc] at ht
      subst ht
      exact ⟨_, _, rfl, rfl, rfl⟩
  · intro ask add cs onlineTemplate internet_search parse read_website
      urlTemplate genericTemplate question
    rcases hq : (OnlineAgent.init ask add cs onlineTemplate internet_search).get_search_query
        parse question with ⟨qres, calls⟩
    have hcalls : calls =
        [[(OnlineAgent.init ask add cs onlineTemplate internet_search).system_prompt,
          ⟨"user", question⟩]] := by
      have h0 := gsq_calls (OnlineAgent.init ask add cs onlineTemplate internet_search)
        parse question
      rw [hq] at h0
      exact h0
    subst hcalls
    cases hn : qres.isNone with
    | true =>
      simp only [OnlineAgent.search, hq, hn, if_true]
      exact Or.inl ⟨_, rfl, _, _, rfl, rfl, rfl⟩
    | false =>
      simp only [OnlineAgent.search, hq, hn, Bool.false_eq_true, if_false]
      cases hu : (parse ((OnlineAgent.init ask add cs onlineTemplate internet_search).ask
          [⟨"system", substPlaceholder
            (substPlaceholder urlTemplate "question" question) "urls"
            (String.intercalate " "
              ((OnlineAgent.init ask add cs onlineTemplate internet_search).search_function qres))⟩])).bind
          (fun rj => jsonLookup rj "url") with
      | none =>
        simp only [hu]
        exact Or.inr (Or.inl ⟨_, _, rfl, ⟨_, _, rfl, rfl, rfl⟩, ⟨_, rfl, rfl⟩⟩)
      | some url =>
        simp only [hu, Agent.ask, Agent.init]
        exact Or.inr (Or.inr ⟨_, _, _, rfl,
          ⟨_, _, rfl, rfl, rfl⟩, ⟨_, rfl, rfl⟩, ⟨_, _, rfl, rfl, rfl⟩⟩)

/-- Counterexample to C3 as stated: in a concrete full `OnlineAgent.search`
run, the three transcripts passed to `llm.ask` have lengths 2, 1, 2 — the
stage-3 URL-picker transcript `[⟨"system", "UT"⟩]` is a single message,
not a system/user pair. -/
theorem transcripts_two_messages_counterexample :
    (((OnlineAgent.init (fun ms => if ms.length == 2 then "s1" else "s2") ""
        none "OT" (fun _ => ["http://a.example"])).search
      (fun s => if s == "s1"
        then some [("search_query", JsonVal.str "q1")]
        else some [("url", JsonVal.str "http://a.example")])
      (fun _ => "W") "UT" "GT" "q").askCalls.map List.length = [2, 1, 2]) ∧
    ¬ isSysUser [⟨"system", "UT"⟩] := by
  constructor
  · rfl
  · rintro ⟨s, u, ht, -, -⟩
    simp at ht

/-- Witness for C3 (amended): a concrete `Agent.ask` transcript is one
system message followed by one user message. -/
theorem transcripts_two_messages_witness :
    isSysUser [⟨"system", "B"⟩, ⟨"user", "hi"⟩] :=
  transcripts_two_messages.2.2.1 ⟨some fun _ => "r"⟩ "B" "" "hi"
    [⟨"system", "B"⟩, ⟨"user", "hi"⟩] (by decide)
